import Mathlib

/-
Shallow embedding of the fuzzy-dollop repository.

Source files:
  src/agent_test.py : the test Runner (class AgentTester, generate_report, main)
  src/server.py     : the static-file server shell (start_server)

Modelling conventions:
  Python exceptions are embedded as an explicit sum type `PyExc`; fallible
  computations return `Except PyExc`.  Python float arithmetic on the small
  counts involved is embedded as exact rational arithmetic over the rationals.
  Wall-clock readings (datetime.now) are inputs: timestamps are opaque strings,
  durations are rational second counts supplied by the environment.  Console
  printing (print calls) has no effect on any claimed property and is not
  modelled.  The working directory is a finite map from filenames to contents,
  embedded as a function to Option; the OS-level faults that Python file
  primitives may raise (caught by the checks' try/except) are supplied by the
  environment as optional injected exceptions.
-/

namespace FuzzyDollop

/-- Python exception values carrying their str(e) message. -/
inductive PyExc where
  | zeroDivisionError (msg : String)
  | indexError (msg : String)
  | typeError (msg : String)
  | assertionError (msg : String)
  | osError (msg : String)
deriving DecidableEq

/-- Embeds Python str(e): the message text of the exception. -/
def PyExc.msg : PyExc → String
  | .zeroDivisionError m => m
  | .indexError m => m
  | .typeError m => m
  | .assertionError m => m
  | .osError m => m

/-- One recorded result (the dict appended by log_test, src/agent_test.py:23-28). -/
structure TestResult where
  test : String
  success : Bool
  details : String
  timestamp : String
deriving DecidableEq

/-- State of an AgentTester instance (src/agent_test.py:17-19): the results
list and the construction-time clock reading (as rational seconds). -/
structure AgentTester where
  test_results : List TestResult
  start_time : ℚ
deriving DecidableEq

/-- Embeds AgentTester.log_test (src/agent_test.py:21-32): appends one result
record with the given timestamp; the console printing is not modelled. -/
def log_test (s : AgentTester) (test_name : String) (success : Bool)
    (details : String) (now : String) : AgentTester :=
  { s with test_results := s.test_results ++
      [{ test := test_name, success := success, details := details, timestamp := now }] }

/-
The body of each check is embedded as an `Except PyExc String` computation:
the value of the try block up to (and excluding) the final log_test call,
returning the success summary string, or the first exception raised.  Each
Python `assert cond, msg` is embedded as a branch raising AssertionError msg
when cond is false.
-/

/-- Body of test_basic_operations (src/agent_test.py:36-50). -/
def basic_operations_body : Except PyExc String :=
  let result := 2 + 2
  if result = 4 then
    let text := "Hello, Agent!"
    if text.length = 13 then
      let numbers : List Nat := [1, 2, 3, 4, 5]
      let squared := numbers.map (fun x => x ^ 2)
      if squared = [1, 4, 9, 16, 25] then
        .ok "Math, strings, and lists working correctly"
      else .error (.assertionError ("Unexpected result: " ++ toString squared))
    else .error (.assertionError ("Expected length 13, got " ++ toString text.length))
  else .error (.assertionError ("Expected 4, got " ++ toString result))

/-- Embeds test_basic_operations (src/agent_test.py:34-52): run the body,
log success with the summary, or catch any exception and log failure with
its message. -/
def test_basic_operations (s : AgentTester) (now : String) : AgentTester :=
  match basic_operations_body with
  | .ok d => log_test s "Basic Operations" true d now
  | .error e => log_test s "Basic Operations" false e.msg now

/-- The working directory: a map from filename to file content. -/
abbrev Fs := String → Option String

/-- Writing a file (open for write plus write, truncating semantics). -/
def fsWrite (fs : Fs) (name content : String) : Fs :=
  fun n => if n = name then some content else fs n

/-- Removing a file (os.remove). -/
def fsRemove (fs : Fs) (name : String) : Fs :=
  fun n => if n = name then none else fs n

/-- Environment of the file-operations check: the initial working directory
plus the optional OS fault each file primitive raises (the nondeterminism the
check's try/except guards against). -/
structure World where
  fs : Fs
  write_fault : Option PyExc
  read_fault : Option PyExc
  remove_fault : Option PyExc

/-- Fixed probe filename of the file-operations check (src/agent_test.py:57). -/
def test_file : String := "temp_test_file.txt"

/-- Fixed probe content of the file-operations check (src/agent_test.py:58). -/
def test_content : String := "This is a test file created by the agent.\nLine 2\nLine 3"

/-- Body of test_file_operations (src/agent_test.py:56-73), paired with the
resulting working directory: write the probe file, read it back, compare,
remove the probe file.  Each primitive may instead raise the environment's
injected fault, leaving the directory as it was at that point. -/
def file_operations_body (w : World) : Except PyExc String × Fs :=
  match w.write_fault with
  | some e => (.error e, w.fs)
  | none =>
    let fs1 := fsWrite w.fs test_file test_content
    match w.read_fault with
    | some e => (.error e, fs1)
    | none =>
      match fs1 test_file with
      | none => (.error (.osError "No such file or directory: temp_test_file.txt"), fs1)
      | some read_content =>
        if read_content = test_content then
          match w.remove_fault with
          | some e => (.error e, fs1)
          | none => (.ok "File write/read/delete successful", fsRemove fs1 test_file)
        else (.error (.assertionError "File content mismatch"), fs1)

/-- Embeds test_file_operations (src/agent_test.py:54-75): run the body and
log exactly one result; returns the updated tester and working directory. -/
def test_file_operations (s : AgentTester) (w : World) (now : String) :
    AgentTester × Fs :=
  match file_operations_body w with
  | (.ok d, fs) => (log_test s "File Operations" true d now, fs)
  | (.error e, fs) => (log_test s "File Operations" false e.msg now, fs)

/-- Shape of the fixed dictionary used by test_data_structures
(src/agent_test.py:81-85): two string fields and one string-list field. -/
structure DataDict where
  name : String
  version : String
  features : List String
deriving DecidableEq

/-- The dict literal of test_data_structures (src/agent_test.py:81-85). -/
def data_value : DataDict :=
  { name := "Agent Test", version := "1.0",
    features := ["coding", "testing", "debugging"] }

/-- Embeds json.loads(json.dumps(x)) for the concrete finite str/list/dict
value above: the Python standard library guarantees the round trip returns an
equal value for such data, so it is embedded as the identity. -/
def json_roundtrip (j : DataDict) : DataDict := j

/-- Python set intersection, on sets represented as duplicate-free lists. -/
def pySetInter (a b : List Nat) : List Nat := a.filter (fun x => b.contains x)

/-- Python set equality: extensional comparison, ignoring order. -/
def pySetEq (a b : List Nat) : Bool :=
  a.all (fun x => b.contains x) && b.all (fun x => a.contains x)

/-- Body of test_data_structures (src/agent_test.py:79-99). -/
def data_structures_body : Except PyExc String :=
  let data := data_value
  let parsed_data := json_roundtrip data
  if parsed_data = data then
    let set1 : List Nat := [1, 2, 3, 4, 5]
    let set2 : List Nat := [4, 5, 6, 7, 8]
    let intersection := pySetInter set1 set2
    if pySetEq intersection [4, 5] then
      .ok "Dictionaries, JSON, and sets working correctly"
    else .error (.assertionError "Unexpected set intersection")
  else .error (.assertionError "JSON serialization/deserialization failed")

/-- Embeds test_data_structures (src/agent_test.py:77-101). -/
def test_data_structures (s : AgentTester) (now : String) : AgentTester :=
  match data_structures_body with
  | .ok d => log_test s "Data Structures" true d now
  | .error e => log_test s "Data Structures" false e.msg now

/-- Embeds the nested fibonacci helper (src/agent_test.py:107-110):
n below or equal 1 returns n, else the sum of the two recursive calls. -/
def fibonacci : Nat → Nat
  | 0 => 0
  | 1 => 1
  | n + 2 => fibonacci (n + 1) + fibonacci n

/-- Exact integer square root, as the greatest k with k * k below or equal n.
Defined by structural recursion (Nat.findGreatest) so that it evaluates by
decide. -/
def intSqrt (n : Nat) : Nat := Nat.findGreatest (fun k => k * k ≤ n) n

/-- Embeds the nested is_prime helper (src/agent_test.py:122-128): trial
division over range(2, int(math.sqrt(n)) + 1); n below 2 is not prime.
The domain is Int, as Python ints; n of at least 2 is handled via toNat.
The loop bound int(math.sqrt(n)) is embedded as the exact integer square
root, which is faithful only for n below 2 to the 53rd: there the int-to-
float conversion is exact and the correctly rounded float square root
truncates to the exact one.  The harness calls is_prime only at 17 and 18,
inside that range.  For larger n the float bound can deviate from the exact
one, and from roughly 2 to the 1024th the conversion raises OverflowError;
neither behaviour is modelled here (IEEE float semantics are outside this
embedding), so no claim is settled against this definition outside the
exact range. -/
def is_prime (n : Int) : Bool :=
  if n < 2 then false
  else (List.range' 2 (intSqrt n.toNat + 1 - 2)).all (fun i => n.toNat % i != 0)

/-- Body of test_algorithms (src/agent_test.py:105-133). -/
def algorithms_body : Except PyExc String :=
  let fib_10 := fibonacci 10
  if fib_10 = 55 then
    let unsorted_list : List Nat := [64, 34, 25, 12, 22, 11, 90]
    let sorted_list := List.insertionSort (· ≤ ·) unsorted_list
    let expected : List Nat := [11, 12, 22, 25, 34, 64, 90]
    if sorted_list = expected then
      if is_prime 17 = true then
        if is_prime 18 = false then
          .ok "Fibonacci, sorting, and prime checking working"
        else .error (.assertionError "18 should not be prime")
      else .error (.assertionError "17 should be prime")
    else .error (.assertionError ("Unexpected sort result: " ++ toString sorted_list))
  else .error (.assertionError ("Expected 55, got " ++ toString fib_10))

/-- Embeds test_algorithms (src/agent_test.py:103-135). -/
def test_algorithms (s : AgentTester) (now : String) : AgentTester :=
  match algorithms_body with
  | .ok d => log_test s "Algorithms" true d now
  | .error e => log_test s "Algorithms" false e.msg now

/-- Python division 10 / 0 and friends: raises ZeroDivisionError on a zero
divisor, else returns the true rational quotient. -/
def pyDiv (a b : Int) : Except PyExc ℚ :=
  if b = 0 then .error (.zeroDivisionError "division by zero")
  else .ok ((a : ℚ) / (b : ℚ))

/-- Python list indexing lst[i]: raises IndexError out of range. -/
def pyIndex (l : List Int) (i : Nat) : Except PyExc Int :=
  match l.get? i with
  | some v => .ok v
  | none => .error (.indexError "list index out of range")

/-- Python string plus int: always raises TypeError. -/
def pyStrAddInt (_s : String) (_n : Int) : Except PyExc String :=
  .error (.typeError "can only concatenate str (not int) to str")

/-
test_error_handling (src/agent_test.py:137-164) is transcribed with one
continuation function per inner try statement.  Each inner try either raises
the expected exception kind (pass, continue with the next statement), or
completes normally (log a failure line, then CONTINUE, as the Python code
does not return there), or raises an unexpected exception which the outer
except converts to one failure record, aborting the rest of the body.
-/

/-- Continuation after the third inner try: the final log_test of the body
(src/agent_test.py:162). -/
def eh_after_type (s : AgentTester) (now : String) : AgentTester :=
  log_test s "Error Handling" true "All expected errors caught correctly" now

/-- Third inner try of test_error_handling (src/agent_test.py:156-160). -/
def eh_after_index (s : AgentTester) (now : String) : AgentTester :=
  match pyStrAddInt "string" 42 with
  | .error (.typeError _) => eh_after_type s now
  | .error e => log_test s "Error Handling" false e.msg now
  | .ok _ =>
      let s := log_test s "Error Handling" false "Should have caught type error" now
      eh_after_type s now

/-- Second inner try of test_error_handling (src/agent_test.py:148-153). -/
def eh_after_div (s : AgentTester) (now : String) : AgentTester :=
  match pyIndex [1, 2, 3] 10 with
  | .error (.indexError _) => eh_after_index s now
  | .error e => log_test s "Error Handling" false e.msg now
  | .ok _ =>
      let s := log_test s "Error Handling" false "Should have caught index error" now
      eh_after_index s now

/-- Embeds test_error_handling (src/agent_test.py:137-164), starting with the
first inner try (division by zero, lines 141-145). -/
def test_error_handling (s : AgentTester) (now : String) : AgentTester :=
  match pyDiv 10 0 with
  | .error (.zeroDivisionError _) => eh_after_div s now
  | .error e => log_test s "Error Handling" false e.msg now
  | .ok _ =>
      let s := log_test s "Error Handling" false "Should have caught division by zero" now
      eh_after_div s now

/-- The report dict returned by generate_report (src/agent_test.py:190-197). -/
structure Report where
  total : Nat
  passed : Nat
  failed : Nat
  success_rate : ℚ
  duration_seconds : ℚ
  results : List TestResult
deriving DecidableEq

/-- Embeds AgentTester.generate_report (src/agent_test.py:166-197).  The
method reads self and assigns no field, so the post-state is returned
alongside the report.  The expression (passed/total)*100 is Python float
division, embedded as exact rational division; when total == 0 Python raises
ZeroDivisionError (first reached in the f-string on line 180), embedded as
the error branch.  Console printing is not modelled; end_time is the clock
reading at call time. -/
def generate_report (s : AgentTester) (end_time : ℚ) :
    Except PyExc (Report × AgentTester) :=
  let duration := end_time - s.start_time
  let passed := s.test_results.countP (fun r => r.success)
  let total := s.test_results.length
  if total = 0 then .error (.zeroDivisionError "division by zero")
  else
    .ok ({ total := total, passed := passed, failed := total - passed,
           success_rate := ((passed : ℚ) / (total : ℚ)) * 100,
           duration_seconds := duration,
           results := s.test_results }, s)

/-- Environment of one Runner process invocation: clock readings, the
file-operations world, and the optional fault of the final report-file
write (src/agent_test.py:220-221), which the code does not handle. -/
structure Env where
  start_time : ℚ
  end_time : ℚ
  now : String
  world : World
  report_write_fault : Option PyExc

/-- The five check calls of main (src/agent_test.py:207-214), in source
order; returns the final tester state and working directory. -/
def run_checks (e : Env) : AgentTester × Fs :=
  let tester : AgentTester := { test_results := [], start_time := e.start_time }
  let t1 := test_basic_operations tester e.now
  let p2 := test_file_operations t1 e.world e.now
  let t3 := test_data_structures p2.1 e.now
  let t4 := test_algorithms t3 e.now
  let t5 := test_error_handling t4 e.now
  (t5, p2.2)

/-- Embeds main plus the process exit (src/agent_test.py:199-229): run the
five checks, generate the report, write it to agent_test_report.json (an
unhandled fault there propagates and kills the process), and exit with
status 0 when success_rate == 100.0, else status 1. -/
def main (e : Env) : Except PyExc Nat :=
  match generate_report (run_checks e).1 e.end_time with
  | .error ex => .error ex
  | .ok (report, _) =>
    match e.report_write_fault with
    | some ex => .error ex
    | none => .ok (if report.success_rate = 100 then 0 else 1)

/-- Outcome of one attempted bind in src/server.py: success, or an OSError
with its errno and message. -/
inductive BindOutcome where
  | ok
  | err (errno : Int) (msg : String)
deriving DecidableEq

/-- Observable outcome of start_server. -/
inductive ServerResult where
  | stopped (port : Nat)
  | exited (code : Nat) (msg : String)
  | hung
deriving DecidableEq

/-- Embeds start_server (src/server.py:20-45).  The environment gives the
bind outcome per port.  On success the server serves until interrupted and
returns cleanly (stopped).  On OSError with errno 48 (address already in use,
per the source comment on line 40) it recurses on port + 1; on any other
OSError it reports the error and exits with status 1.  The fuel argument
makes the unbounded Python recursion a total function; exhausted fuel
(hung) models an indefinitely retrying process. -/
def start_server (env : Nat → BindOutcome) : Nat → Nat → ServerResult
  | 0, _ => .hung
  | fuel + 1, port =>
    match env port with
    | .ok => .stopped port
    | .err errno msg =>
      if errno = 48 then start_server env fuel (port + 1)
      else .exited 1 ("Error starting server: " ++ msg)

/-- Rounding a rational to one decimal place, used to state the 66.7 check of
the spec (round half away is irrelevant here: the value is not a tie). -/
def round1 (q : ℚ) : ℚ := ((round (q * 10) : ℤ) : ℚ) / 10

/-
Concrete sample inputs, used by the witness and counterexample theorems.
-/

/-- A fresh tester with no recorded results. -/
def tester0 : AgentTester := { test_results := [], start_time := 0 }

/-- The three results logged by test_generate_report (src/test_agent.py:127-129). -/
def sample_results : List TestResult :=
  [{ test := "Test 1", success := true, details := "", timestamp := "t" },
   { test := "Test 2", success := true, details := "", timestamp := "t" },
   { test := "Test 3", success := false, details := "Error message", timestamp := "t" }]

/-- A tester holding the three sample results. -/
def sample_tester : AgentTester := { test_results := sample_results, start_time := 0 }

/-- An empty working directory with no injected faults. -/
def clean_world : World :=
  { fs := fun _ => none, write_fault := none, read_fault := none, remove_fault := none }

/-- A working directory where opening the probe file for writing raises. -/
def fault_world : World :=
  { fs := fun _ => none, write_fault := some (.osError "disk full"),
    read_fault := none, remove_fault := none }

/-- A working directory that already contains the probe file. -/
def dirty_world : World :=
  { fs := fun n => if n = "temp_test_file.txt" then some "old" else none,
    write_fault := none, read_fault := none, remove_fault := none }

/-- A full Runner environment with a clean directory and a working report write. -/
def clean_env : Env :=
  { start_time := 0, end_time := 1, now := "t", world := clean_world,
    report_write_fault := none }

/-- The report value generated from sample_tester at end time 1. -/
def sample_report : Report :=
  { total := 3, passed := 2, failed := 1, success_rate := 200 / 3,
    duration_seconds := 1, results := sample_results }

/-- The five results recorded by a clean full run, all with timestamp t. -/
def clean_results : List TestResult :=
  [⟨"Basic Operations", true, "Math, strings, and lists working correctly", "t"⟩,
   ⟨"File Operations", true, "File write/read/delete successful", "t"⟩,
   ⟨"Data Structures", true, "Dictionaries, JSON, and sets working correctly", "t"⟩,
   ⟨"Algorithms", true, "Fibonacci, sorting, and prime checking working", "t"⟩,
   ⟨"Error Handling", true, "All expected errors caught correctly", "t"⟩]

/-- The tester state after a clean full run. -/
def clean_final : AgentTester := { test_results := clean_results, start_time := 0 }

/-- The report of a clean full run. -/
def clean_report : Report :=
  { total := 5, passed := 5, failed := 0, success_rate := 100,
    duration_seconds := 1, results := clean_results }

/-- Bind outcomes where port 8000 is occupied and port 8001 is free. -/
def bind_probe : Nat → BindOutcome :=
  fun p => if p = 8000 then .err 48 "Address already in use" else .ok

/-- Bind outcomes where binding port 8000 fails with a permission error. -/
def bind_denied : Nat → BindOutcome :=
  fun p => if p = 8000 then .err 13 "Permission denied" else .ok

/-
Helper lemmas shared by the claim theorems.
-/

theorem basic_operations_body_eq :
    basic_operations_body = .ok "Math, strings, and lists working correctly" := rfl

theorem data_structures_body_eq :
    data_structures_body = .ok "Dictionaries, JSON, and sets working correctly" := rfl

theorem algorithms_body_eq :
    algorithms_body = .ok "Fibonacci, sorting, and prime checking working" := rfl

theorem test_basic_operations_eq (s : AgentTester) (now : String) :
    test_basic_operations s now =
      log_test s "Basic Operations" true "Math, strings, and lists working correctly" now := rfl

theorem test_data_structures_eq (s : AgentTester) (now : String) :
    test_data_structures s now =
      log_test s "Data Structures" true "Dictionaries, JSON, and sets working correctly" now := rfl

theorem test_algorithms_eq (s : AgentTester) (now : String) :
    test_algorithms s now =
      log_test s "Algorithms" true "Fibonacci, sorting, and prime checking working" now := rfl

theorem test_error_handling_eq (s : AgentTester) (now : String) :
    test_error_handling s now =
      log_test s "Error Handling" true "All expected errors caught correctly" now := rfl

theorem length_log_test (s : AgentTester) (name : String) (b : Bool) (d t : String) :
    (log_test s name b d t).test_results.length = s.test_results.length + 1 := by
  simp [log_test]

theorem length_test_file_operations (s : AgentTester) (w : World) (now : String) :
    (test_file_operations s w now).1.test_results.length = s.test_results.length + 1 := by
  rcases w with ⟨fs, wf, rf, mf⟩
  unfold test_file_operations file_operations_body
  rcases wf with _ | e₁ <;> rcases rf with _ | e₂ <;> rcases mf with _ | e₃ <;>
    simp [log_test, fsWrite, test_file]

theorem run_checks_length (e : Env) : (run_checks e).1.test_results.length = 5 := by
  dsimp only [run_checks]
  rw [test_error_handling_eq, length_log_test, test_algorithms_eq, length_log_test,
    test_data_structures_eq, length_log_test, length_test_file_operations,
    test_basic_operations_eq, length_log_test]
  rfl

theorem test_file_operations_clean (s : AgentTester) (fs : Fs) (now : String) :
    test_file_operations s ⟨fs, none, none, none⟩ now =
      (log_test s "File Operations" true "File write/read/delete successful" now,
       fsRemove (fsWrite fs test_file test_content) test_file) := rfl

theorem test_file_operations_write_fault (s : AgentTester) (fs : Fs) (e : PyExc)
    (rf mf : Option PyExc) (now : String) :
    test_file_operations s ⟨fs, some e, rf, mf⟩ now =
      (log_test s "File Operations" false e.msg now, fs) := rfl

theorem test_file_operations_read_fault (s : AgentTester) (fs : Fs) (e : PyExc)
    (mf : Option PyExc) (now : String) :
    test_file_operations s ⟨fs, none, some e, mf⟩ now =
      (log_test s "File Operations" false e.msg now,
       fsWrite fs test_file test_content) := rfl

theorem test_file_operations_remove_fault (s : AgentTester) (fs : Fs) (e : PyExc)
    (now : String) :
    test_file_operations s ⟨fs, none, none, some e⟩ now =
      (log_test s "File Operations" false e.msg now,
       fsWrite fs test_file test_content) := rfl

theorem append_singleton_inj {l : List TestResult} {a b : TestResult}
    (h : l ++ [a] = l ++ [b]) : a = b := by
  have := List.append_cancel_left h
  simpa using this

theorem countP_success_add_not (l : List TestResult) :
    l.countP (fun t => t.success) + l.countP (fun t => !t.success) = l.length := by
  induction l with
  | nil => rfl
  | cons a l ih => cases h : a.success <;> simp [List.countP_cons, h] <;> omega

theorem generate_report_error_length (s : AgentTester) (et : ℚ) (ex : PyExc)
    (h : generate_report s et = .error ex) : s.test_results.length = 0 := by
  by_contra hne
  simp only [generate_report, if_neg hne] at h
  exact Except.noConfusion h

theorem generate_report_ok (s : AgentTester) (et : ℚ)
    (h : s.test_results.length ≠ 0) :
    generate_report s et =
      .ok ({ total := s.test_results.length,
             passed := s.test_results.countP (fun r => r.success),
             failed := s.test_results.length -
               s.test_results.countP (fun r => r.success),
             success_rate := ((s.test_results.countP (fun r => r.success) : ℚ) /
               (s.test_results.length : ℚ)) * 100,
             duration_seconds := et - s.start_time,
             results := s.test_results }, s) := by
  simp only [generate_report, if_neg h]

theorem generate_report_sample :
    generate_report sample_tester 1 = .ok (sample_report, sample_tester) := by
  rw [generate_report_ok sample_tester 1 (by simp [sample_tester, sample_results])]
  simp [sample_tester, sample_results, sample_report]
  norm_num

theorem run_checks_clean : (run_checks clean_env).1 = clean_final := rfl

theorem generate_report_clean :
    generate_report (run_checks clean_env).1 clean_env.end_time =
      .ok (clean_report, clean_final) := by
  rw [run_checks_clean,
    generate_report_ok clean_final clean_env.end_time
      (by simp [clean_final, clean_results])]
  simp [clean_final, clean_results, clean_report, clean_env]

theorem round1_two_thirds :
    round1 (((2 : ℕ) : ℚ) / ((3 : ℕ) : ℚ) * 100) = 667 / 10 := by
  unfold round1
  have h : round (((2 : ℕ) : ℚ) / ((3 : ℕ) : ℚ) * 100 * 10) = 667 := by
    have h2 : (((2 : ℕ) : ℚ) / ((3 : ℕ) : ℚ) * 100 * 10) = 2000 / 3 := by norm_num
    rw [h2, round_eq, Int.floor_eq_iff]
    constructor <;> norm_num
  rw [h]
  norm_num

/-
Claim theorems.
-/

/-- C1 (code bug): for a Runner with an empty recorded-results sequence
(total == 0), generate_report does perform the division by zero: it evaluates
passed/total and raises ZeroDivisionError, for any clock readings, instead of
leaving success_rate undefined without dividing. -/
theorem generate_report_empty_raises (st et : ℚ) :
    generate_report { test_results := [], start_time := st } et =
      .error (.zeroDivisionError "division by zero") := rfl

/-- C2: each of the five check methods appends exactly one TestResult to the
results sequence per invocation, for every prior state, every file-system
environment (including injected faults), and every timestamp. -/
theorem checks_append_exactly_one (s : AgentTester) (w : World) (now : String) :
    (test_basic_operations s now).test_results.length = s.test_results.length + 1 ∧
    (test_file_operations s w now).1.test_results.length = s.test_results.length + 1 ∧
    (test_data_structures s now).test_results.length = s.test_results.length + 1 ∧
    (test_algorithms s now).test_results.length = s.test_results.length + 1 ∧
    (test_error_handling s now).test_results.length = s.test_results.length + 1 :=
  ⟨by rw [test_basic_operations_eq, length_log_test],
   length_test_file_operations s w now,
   by rw [test_data_structures_eq, length_log_test],
   by rw [test_algorithms_eq, length_log_test],
   by rw [test_error_handling_eq, length_log_test]⟩

/-- C4: no check lets a fault propagate: whenever a check body raises, the
check records exactly one TestResult with success false and the fault's
message as details.  For test_error_handling, the three deliberately triggered
exceptions are absorbed by the inner handlers and the check records its single
success result, so no fault escapes it either. -/
theorem checks_convert_faults (s : AgentTester) (w : World) (now : String)
    (e : PyExc) :
    (basic_operations_body = .error e →
      (test_basic_operations s now).test_results =
        s.test_results ++ [⟨"Basic Operations", false, e.msg, now⟩]) ∧
    ((file_operations_body w).1 = .error e →
      (test_file_operations s w now).1.test_results =
        s.test_results ++ [⟨"File Operations", false, e.msg, now⟩]) ∧
    (data_structures_body = .error e →
      (test_data_structures s now).test_results =
        s.test_results ++ [⟨"Data Structures", false, e.msg, now⟩]) ∧
    (algorithms_body = .error e →
      (test_algorithms s now).test_results =
        s.test_results ++ [⟨"Algorithms", false, e.msg, now⟩]) ∧
    (test_error_handling s now).test_results =
      s.test_results ++
        [⟨"Error Handling", true, "All expected errors caught correctly", now⟩] := by
  refine ⟨?_, ?_, ?_, ?_, ?_⟩
  · intro h; rw [basic_operations_body_eq] at h; exact Except.noConfusion h
  · intro h
    rcases hb : file_operations_body w with ⟨res, fs⟩
    rw [hb] at h
    have h' : res = .error e := h
    unfold test_file_operations
    rw [hb, h']
    rfl
  · intro h; rw [data_structures_body_eq] at h; exact Except.noConfusion h
  · intro h; rw [algorithms_body_eq] at h; exact Except.noConfusion h
  · rw [test_error_handling_eq]
    rfl

/-- C4 witness: with an injected write fault, the file-operations check
records the single failure result carrying the fault's message. -/
theorem checks_convert_faults_witness :
    (file_operations_body fault_world).1 = .error (.osError "disk full") ∧
    (test_file_operations tester0 fault_world "t").1.test_results =
      tester0.test_results ++ [⟨"File Operations", false, "disk full", "t"⟩] :=
  ⟨rfl, (checks_convert_faults tester0 fault_world "t" (.osError "disk full")).2.1 rfl⟩

/-- C5: whenever generate_report returns a report, its total is the length of
the results sequence, passed counts the successful results, failed counts the
unsuccessful ones, and passed plus failed equals total. -/
theorem report_counts_partition (s : AgentTester) (et : ℚ) (r : Report)
    (s' : AgentTester) (h : generate_report s et = .ok (r, s')) :
    r.total = s.test_results.length ∧
    r.passed = s.test_results.countP (fun t => t.success) ∧
    r.failed = s.test_results.countP (fun t => !t.success) ∧
    r.passed + r.failed = r.total := by
  by_cases h0 : s.test_results.length = 0
  · simp only [generate_report, if_pos h0] at h
    exact Except.noConfusion h
  · rw [generate_report_ok s et h0] at h
    simp only [Except.ok.injEq, Prod.mk.injEq] at h
    obtain ⟨hr, hs⟩ := h
    subst hr
    have hsum := countP_success_add_not s.test_results
    have hle : s.test_results.countP (fun t => t.success) ≤ s.test_results.length :=
      List.countP_le_length _
    refine ⟨rfl, rfl, ?_, ?_⟩ <;> simp only [] <;> omega

/-- C5 witness: the sample three-result state from the unit test. -/
theorem report_counts_partition_witness :
    generate_report sample_tester 1 = .ok (sample_report, sample_tester) ∧
    sample_report.total = sample_tester.test_results.length ∧
    sample_report.passed = sample_tester.test_results.countP (fun t => t.success) ∧
    sample_report.failed = sample_tester.test_results.countP (fun t => !t.success) ∧
    sample_report.passed + sample_report.failed = sample_report.total :=
  ⟨generate_report_sample,
   report_counts_partition sample_tester 1 _ _ generate_report_sample⟩

/-- C8: generate_report is a pure read: the tester state it returns is exactly
the input state (no mutation of the results sequence or start-time marker),
and the report's results field is the full recorded sequence in order. -/
theorem generate_report_pure (s : AgentTester) (et : ℚ) (r : Report)
    (s' : AgentTester) (h : generate_report s et = .ok (r, s')) :
    s' = s ∧ r.results = s.test_results := by
  by_cases h0 : s.test_results.length = 0
  · simp only [generate_report, if_pos h0] at h
    exact Except.noConfusion h
  · rw [generate_report_ok s et h0] at h
    simp only [Except.ok.injEq, Prod.mk.injEq] at h
    obtain ⟨hr, hs⟩ := h
    subst hr
    exact ⟨hs.symm, rfl⟩

/-- C8 witness: the sample three-result state. -/
theorem generate_report_pure_witness :
    generate_report sample_tester 1 = .ok (sample_report, sample_tester) ∧
    sample_tester = sample_tester ∧
    sample_report.results = sample_tester.test_results :=
  ⟨generate_report_sample,
   generate_report_pure sample_tester 1 _ _ generate_report_sample⟩

/-- C9: whenever binding the requested port fails, the server retries on the
next higher port exactly when the error is address-already-in-use (errno 48,
per the source's own comment), and on any other OS error it reports the error
and the process terminates with exit status 1. -/
theorem start_server_bind_failure (env : Nat → BindOutcome) (fuel port : Nat)
    (errno : Int) (msg : String) (h : env port = .err errno msg) :
    (errno = 48 →
      start_server env (fuel + 1) port = start_server env fuel (port + 1)) ∧
    (errno ≠ 48 →
      start_server env (fuel + 1) port =
        .exited 1 ("Error starting server: " ++ msg)) := by
  constructor <;> intro h48 <;> simp [start_server, h, h48]

/-- C9 witness: port 8000 occupied, address-in-use errno. -/
theorem start_server_bind_failure_witness :
    bind_probe 8000 = .err 48 "Address already in use" ∧
    (((48 : Int) = 48 →
      start_server bind_probe 2 8000 = start_server bind_probe 1 8001) ∧
    ((48 : Int) ≠ 48 →
      start_server bind_probe 2 8000 =
        .exited 1 ("Error starting server: " ++ "Address already in use"))) :=
  ⟨rfl, start_server_bind_failure bind_probe 1 8000 48 "Address already in use" rfl⟩

/-- C3: whenever generate_report returns a report (exactly the non-empty
cases), its success_rate equals 100 exactly when every recorded result has
success true; and whenever 2 of 3 recorded results passed, the success_rate
rounds to 66.7 at one decimal place. -/
theorem success_rate_spec (s : AgentTester) (et : ℚ) (r : Report)
    (s' : AgentTester) (h : generate_report s et = .ok (r, s')) :
    (r.success_rate = 100 ↔ ∀ t ∈ s.test_results, t.success = true) ∧
    (r.passed = 2 ∧ r.total = 3 → round1 r.success_rate = 667 / 10) := by
  by_cases h0 : s.test_results.length = 0
  · simp only [generate_report, if_pos h0] at h
    exact Except.noConfusion h
  · rw [generate_report_ok s et h0] at h
    simp only [Except.ok.injEq, Prod.mk.injEq] at h
    obtain ⟨hr, hs⟩ := h
    subst hr
    have ht : (0 : ℚ) < (s.test_results.length : ℚ) := by
      exact_mod_cast Nat.pos_of_ne_zero h0
    constructor
    · dsimp only
      constructor
      · intro hrate
        rw [div_mul_eq_mul_div, div_eq_iff ht.ne'] at hrate
        have hpt : (s.test_results.countP (fun t => t.success) : ℚ) =
            (s.test_results.length : ℚ) := by linarith
        have hnat : s.test_results.countP (fun t => t.success) =
            s.test_results.length := by exact_mod_cast hpt
        intro t htmem
        simpa using List.countP_eq_length.1 hnat t htmem
      · intro hall
        have hnat : s.test_results.countP (fun t => t.success) =
            s.test_results.length :=
          List.countP_eq_length.2 (fun a ha => by simpa using hall a ha)
        rw [hnat, div_self ht.ne', one_mul]
    · dsimp only
      rintro ⟨hp, htot⟩
      rw [hp, htot]
      exact round1_two_thirds

/-- C3 witness: the sample state with 2 passed and 1 failed of 3. -/
theorem success_rate_spec_witness :
    generate_report sample_tester 1 = .ok (sample_report, sample_tester) ∧
    ((sample_report.success_rate = 100 ↔
        ∀ t ∈ sample_tester.test_results, t.success = true) ∧
     (sample_report.passed = 2 ∧ sample_report.total = 3 →
        round1 sample_report.success_rate = 667 / 10)) :=
  ⟨generate_report_sample,
   success_rate_spec sample_tester 1 _ _ generate_report_sample⟩

/-- C6 counterexample: with the probe file already present in the working
directory, the file-operations check succeeds yet the directory is not in its
prior state afterwards: the pre-existing probe file is gone. -/
theorem file_operations_not_same_state :
    (test_file_operations tester0 dirty_world "t").1.test_results.map
        (fun r => r.success) = [true] ∧
    (test_file_operations tester0 dirty_world "t").2 ≠ dirty_world.fs := by
  constructor
  · rfl
  · intro hfs
    have h1 : (test_file_operations tester0 dirty_world "t").2
        "temp_test_file.txt" = none := rfl
    rw [hfs] at h1
    have h2 : dirty_world.fs "temp_test_file.txt" = some "old" := rfl
    rw [h1] at h2
    exact Option.noConfusion h2

/-- C6 amended: whenever the file-operations check records a success, the
probe file temp_test_file.txt is absent afterwards and every other file is
unchanged; if the probe file was absent before the call, the working
directory is exactly its prior state. -/
theorem file_operations_success_cleanup (s : AgentTester) (w : World)
    (now : String) (r : TestResult)
    (happ : (test_file_operations s w now).1.test_results =
      s.test_results ++ [r])
    (hsucc : r.success = true) :
    (test_file_operations s w now).2 test_file = none ∧
    (∀ name, name ≠ test_file →
      (test_file_operations s w now).2 name = w.fs name) ∧
    (w.fs test_file = none → (test_file_operations s w now).2 = w.fs) := by
  rcases w with ⟨fs, wf, rf, mf⟩
  rcases wf with _ | e₁
  · rcases rf with _ | e₂
    · rcases mf with _ | e₃
      · rw [test_file_operations_clean] at happ ⊢
        refine ⟨?_, ?_, ?_⟩
        · simp [fsRemove]
        · intro name hname
          simp [fsRemove, fsWrite, hname]
        · intro habs
          funext n
          by_cases hn : n = test_file
          · subst hn
            have habs' : fs test_file = none := habs
            simp [fsRemove, habs']
          · simp [fsRemove, fsWrite, hn]
      · rw [test_file_operations_remove_fault] at happ
        have happ' : s.test_results ++
            [⟨"File Operations", false, e₃.msg, now⟩] =
            s.test_results ++ [r] := happ
        have hreq := append_singleton_inj happ'
        rw [← hreq] at hsucc
        exact Bool.noConfusion hsucc
    · rw [test_file_operations_read_fault] at happ
      have happ' : s.test_results ++
          [⟨"File Operations", false, e₂.msg, now⟩] =
          s.test_results ++ [r] := happ
      have hreq := append_singleton_inj happ'
      rw [← hreq] at hsucc
      exact Bool.noConfusion hsucc
  · rw [test_file_operations_write_fault] at happ
    have happ' : s.test_results ++
        [⟨"File Operations", false, e₁.msg, now⟩] =
        s.test_results ++ [r] := happ
    have hreq := append_singleton_inj happ'
    rw [← hreq] at hsucc
    exact Bool.noConfusion hsucc

/-- C6 witness: a clean directory, where the successful check restores the
directory exactly. -/
theorem file_operations_success_cleanup_witness :
    (test_file_operations tester0 clean_world "t").1.test_results =
      tester0.test_results ++
        [⟨"File Operations", true, "File write/read/delete successful", "t"⟩] ∧
    (⟨"File Operations", true, "File write/read/delete successful", "t"⟩ :
        TestResult).success = true ∧
    ((test_file_operations tester0 clean_world "t").2 test_file = none ∧
     (∀ name, name ≠ test_file →
       (test_file_operations tester0 clean_world "t").2 name =
         clean_world.fs name) ∧
     (clean_world.fs test_file = none →
       (test_file_operations tester0 clean_world "t").2 = clean_world.fs)) :=
  ⟨rfl, rfl, file_operations_success_cleanup tester0 clean_world "t" _ rfl rfl⟩

/-- C7: when the report-file write does not fault, the Runner process exits
with status 0 exactly when the generated report's success_rate equals 100.0
(strict equality), and with status 1 otherwise. -/
theorem main_exit_code (e : Env) (hw : e.report_write_fault = none)
    (r : Report) (s' : AgentTester)
    (hr : generate_report (run_checks e).1 e.end_time = .ok (r, s')) :
    (main e = .ok 0 ↔ r.success_rate = 100) ∧
    (main e = .ok 1 ↔ r.success_rate ≠ 100) := by
  unfold main
  rw [hr, hw]
  by_cases h100 : r.success_rate = 100 <;> simp [h100]

/-- C7 witness: a clean environment where all five checks pass, so the
process exits 0. -/
theorem main_exit_code_witness :
    clean_env.report_write_fault = none ∧
    generate_report (run_checks clean_env).1 clean_env.end_time =
      .ok (clean_report, clean_final) ∧
    ((main clean_env = .ok 0 ↔ clean_report.success_rate = 100) ∧
     (main clean_env = .ok 1 ↔ clean_report.success_rate ≠ 100)) :=
  ⟨rfl, generate_report_clean,
   main_exit_code clean_env rfl clean_report clean_final generate_report_clean⟩

end FuzzyDollop
